import Mathlib

/-!
Verification development for the satellite-image-viewer mosaic-rendering
pipeline (src/model/read_stac.py, class ReadSTAC).

The Python source is shallowly embedded below.  Python floats are modelled by
rationals; numpy arrays by nested lists.  Fallible operations (exceptions) are
modelled with Option / Except.  External collaborators (the mosaic assembler
rio_tiler, the coordinate reprojector rasterio.warp, the PIL image codec, the
super-resolution model, the colormap registry, the float formatter of Python
f-strings, and json.dumps) are passed as explicit function parameters, bundled
in the structure Ext; the orchestration logic itself is translated line by
line from the source.
-/

set_option maxRecDepth 10000

attribute [local semireducible] Rat.mul Rat.add Rat.sub Rat.inv

namespace ReadStac

/-! ### Python string primitives

Core String routines (String.ltb, String.splitOn, String.trim, String.toLower)
do not reduce in the kernel, so the Python string builtins used by the source
are modelled directly on the character lists.  Python compares strings by code
point, which is exactly the lexicographic order on the char lists. -/

/-- Lexicographic (code-point) order on char lists, as Python compares str. -/
def chars_le : List Char → List Char → Bool
  | [], _ => true
  | _ :: _, [] => false
  | c :: cs, d :: ds => if c = d then chars_le cs ds else decide (c < d)

/-- Python str order: lexicographic by code point. -/
def str_le (a b : String) : Bool := chars_le a.data b.data

/-- Propositional form of str_le, used as the sorting relation. -/
def str_le_rel : String → String → Prop := fun a b => str_le a b = true

theorem chars_le_total (a b : List Char) : chars_le a b = true ∨ chars_le b a = true := by
  induction a generalizing b with
  | nil => left; rfl
  | cons c cs ih =>
    cases b with
    | nil => right; rfl
    | cons d ds =>
      by_cases hcd : c = d
      · subst hcd
        rcases ih ds with h | h
        · left; simpa [chars_le] using h
        · right; simpa [chars_le] using h
      · have hdc : d ≠ c := fun h => hcd h.symm
        rcases lt_trichotomy c d with h | h | h
        · left; simp [chars_le, hcd, h]
        · exact absurd h hcd
        · right; simp [chars_le, hdc, h]

theorem chars_le_trans {a b c : List Char} (hab : chars_le a b = true)
    (hbc : chars_le b c = true) : chars_le a c = true := by
  induction a generalizing b c with
  | nil => rfl
  | cons x xs ih =>
    cases b with
    | nil => simp [chars_le] at hab
    | cons y ys =>
      cases c with
      | nil => simp [chars_le] at hbc
      | cons z zs =>
        by_cases hxy : x = y <;> by_cases hyz : y = z
        · subst hxy; subst hyz
          simp only [chars_le, if_pos rfl] at *
          exact ih hab hbc
        · subst hxy
          simp only [chars_le, if_pos rfl] at hab
          simp only [chars_le, if_neg hyz] at hbc ⊢
          exact hbc
        · subst hyz
          simp only [chars_le, if_neg hxy] at hab
          simp only [chars_le, if_neg hxy] at *
          exact hab
        · simp only [chars_le, if_neg hxy, decide_eq_true_eq] at hab
          simp only [chars_le, if_neg hyz, decide_eq_true_eq] at hbc
          have hxz : x < z := lt_trans hab hbc
          have hxz' : x ≠ z := ne_of_lt hxz
          simp only [chars_le, if_neg hxz', decide_eq_true_eq]
          exact hxz

theorem chars_le_antisymm {a b : List Char} (hab : chars_le a b = true)
    (hba : chars_le b a = true) : a = b := by
  induction a generalizing b with
  | nil =>
    cases b with
    | nil => rfl
    | cons d ds => simp [chars_le] at hba
  | cons c cs ih =>
    cases b with
    | nil => simp [chars_le] at hab
    | cons d ds =>
      by_cases hcd : c = d
      · subst hcd
        simp only [chars_le, if_pos rfl] at hab hba
        rw [ih hab hba]
      · have hdc : d ≠ c := fun h => hcd h.symm
        simp only [chars_le, if_neg hcd, if_neg hdc, decide_eq_true_eq] at hab hba
        exact absurd hba (not_lt_of_gt hab)

instance : DecidableRel str_le_rel := fun a b => instDecidableEqBool (str_le a b) true

instance : IsTotal String str_le_rel := ⟨fun a b => chars_le_total a.data b.data⟩

instance : IsTrans String str_le_rel := ⟨fun _ _ _ => chars_le_trans⟩

instance : IsAntisymm String str_le_rel :=
  ⟨fun a b hab hba => by
    cases a; cases b
    exact congrArg String.mk (chars_le_antisymm hab hba)⟩

/-- Python sorted() on a list of strings: ascending code-point order. -/
def sort_strings (l : List String) : List String := List.insertionSort str_le_rel l

/-- Python str.strip(): remove leading and trailing whitespace. -/
def py_strip (s : String) : String :=
  String.mk (((s.data.dropWhile Char.isWhitespace).reverse.dropWhile Char.isWhitespace).reverse)

/-- Helper of py_split_comma: split a char list at every comma. -/
def split_comma : List Char → List (List Char)
  | [] => [[]]
  | c :: rest =>
    let r := split_comma rest
    if c = ',' then [] :: r
    else
      match r with
      | [] => [[c]]
      | g :: gs => (c :: g) :: gs

/-- Python str.split for a one-character separator, here the comma. -/
def py_split_comma (s : String) : List String := (split_comma s.data).map String.mk

/-- Python str.lower for the ASCII strings used by the source (format names). -/
def py_lower_char (c : Char) : Char :=
  if 'A' ≤ c ∧ c ≤ 'Z' then Char.ofNat (c.toNat + 32) else c

/-- Python str.lower on a string. -/
def py_lower (s : String) : String := String.mk (s.data.map py_lower_char)

/-! ### Value domain

numexpr evaluates over IEEE-754 doubles.  The value domain below keeps exact
rationals for the finite values (the embedding does not model binary rounding
or overflow) and adjoins the three non-finite values nan, +inf and -inf with
their IEEE propagation rules, which is what the NaN-sanitization behaviour of
the source is about. -/

/-- A double value: an exact finite rational, or nan / +inf / -inf. -/
inductive FVal where
  | finite (q : ℚ)
  | nan
  | inf
  | neginf
deriving DecidableEq

/-- IEEE negation. -/
def FVal.neg : FVal → FVal
  | finite q => finite (-q)
  | nan => nan
  | inf => neginf
  | neginf => inf

/-- IEEE addition (no overflow: finite values are exact rationals). -/
def FVal.add : FVal → FVal → FVal
  | nan, _ => nan
  | _, nan => nan
  | finite a, finite b => finite (a + b)
  | inf, neginf => nan
  | neginf, inf => nan
  | inf, _ => inf
  | _, inf => inf
  | neginf, _ => neginf
  | _, neginf => neginf

/-- IEEE subtraction. -/
def FVal.sub : FVal → FVal → FVal
  | nan, _ => nan
  | _, nan => nan
  | finite a, finite b => finite (a - b)
  | inf, inf => nan
  | neginf, neginf => nan
  | inf, _ => inf
  | _, neginf => inf
  | neginf, _ => neginf
  | _, inf => neginf

/-- IEEE multiplication. -/
def FVal.mul : FVal → FVal → FVal
  | nan, _ => nan
  | _, nan => nan
  | finite a, finite b => finite (a * b)
  | finite a, inf => if a = 0 then nan else if 0 < a then inf else neginf
  | finite a, neginf => if a = 0 then nan else if 0 < a then neginf else inf
  | inf, finite b => if b = 0 then nan else if 0 < b then inf else neginf
  | neginf, finite b => if b = 0 then nan else if 0 < b then neginf else inf
  | inf, inf => inf
  | inf, neginf => neginf
  | neginf, inf => neginf
  | neginf, neginf => inf

/-- IEEE division; x/0 gives nan or a signed infinity, as numpy true division. -/
def FVal.div : FVal → FVal → FVal
  | nan, _ => nan
  | _, nan => nan
  | finite a, finite b =>
    if b = 0 then (if a = 0 then nan else if 0 < a then inf else neginf)
    else finite (a / b)
  | finite _, inf => finite 0
  | finite _, neginf => finite 0
  | inf, finite b => if b < 0 then neginf else inf
  | neginf, finite b => if b < 0 then inf else neginf
  | inf, _ => nan
  | neginf, _ => nan

/-- The largest finite IEEE double, 1.7976931348623157e308 (written out as
17976931348623157 times 10 to the 292), which is what numpy.nan_to_num
substitutes for +inf by default. -/
def max_float : ℚ := 179769313486231570000000000000000000000000000000000000000000000000000000000000000000000000000000000000000000000000000000000000000000000000000000000000000000000000000000000000000000000000000000000000000000000000000000000000000000000000000000000000000000000000000000000000000000000000000000000000000000000000000

/-- numpy.nan_to_num on one element: nan becomes 0.0, +inf becomes the largest
finite double and -inf its negation. -/
def FVal.nan_to_num : FVal → FVal
  | finite q => finite q
  | nan => finite 0
  | inf => finite max_float
  | neginf => finite (-max_float)

/-- True exactly on finite values. -/
def FVal.is_finite : FVal → Bool
  | finite _ => true
  | _ => false

/-! ### numexpr expressions

ne.evaluate is an external library; the model covers the expression language
the component contract needs: variables naming the bound bands and the four
arithmetic operators with the usual precedence and parentheses, evaluated
element-wise over equally-shaped 2-d bands. -/

/-- Abstract syntax of a band expression. -/
inductive Expr where
  | var (s : String)
  | add (a b : Expr)
  | sub (a b : Expr)
  | mul (a b : Expr)
  | div (a b : Expr)
deriving DecidableEq

/-- Lexer tokens of a band expression. -/
inductive Token where
  | ident (s : String)
  | op (c : Char)
  | lparen
  | rparen
deriving DecidableEq

/-- Characters allowed inside a variable name. -/
def is_ident_char (c : Char) : Bool := c.isAlpha || c.isDigit || c = '_'

/-- Fuel-indexed lexer; fuel larger than the input length never runs out. -/
def tokenize : Nat → List Char → Option (List Token)
  | 0, _ => none
  | _ + 1, [] => some []
  | fuel + 1, c :: rest =>
    if c = ' ' then tokenize fuel rest
    else if c = '+' || c = '-' || c = '*' || c = '/' then
      (tokenize fuel rest).map (fun ts => Token.op c :: ts)
    else if c = '(' then (tokenize fuel rest).map (fun ts => Token.lparen :: ts)
    else if c = ')' then (tokenize fuel rest).map (fun ts => Token.rparen :: ts)
    else if c.isAlpha then
      (tokenize fuel ((c :: rest).dropWhile is_ident_char)).map
        (fun ts => Token.ident (String.mk ((c :: rest).takeWhile is_ident_char)) :: ts)
    else none

mutual

/-- Parse an atom: a variable or a parenthesised sum. -/
def parse_atom : Nat → List Token → Option (Expr × List Token)
  | 0, _ => none
  | fuel + 1, ts =>
    match ts with
    | Token.ident s :: rest => some (Expr.var s, rest)
    | Token.lparen :: rest =>
      match parse_sum fuel rest with
      | some (e, Token.rparen :: rest') => some (e, rest')
      | _ => none
    | _ => none

/-- Parse the continuation of a product. -/
def parse_prod_rest : Nat → Expr → List Token → Option (Expr × List Token)
  | 0, _, _ => none
  | fuel + 1, acc, ts =>
    match ts with
    | Token.op '*' :: rest =>
      match parse_atom fuel rest with
      | some (e, rest') => parse_prod_rest fuel (Expr.mul acc e) rest'
      | none => none
    | Token.op '/' :: rest =>
      match parse_atom fuel rest with
      | some (e, rest') => parse_prod_rest fuel (Expr.div acc e) rest'
      | none => none
    | _ => some (acc, ts)

/-- Parse a product of atoms. -/
def parse_prod : Nat → List Token → Option (Expr × List Token)
  | 0, _ => none
  | fuel + 1, ts =>
    match parse_atom fuel ts with
    | some (e, rest) => parse_prod_rest fuel e rest
    | none => none

/-- Parse the continuation of a sum. -/
def parse_sum_rest : Nat → Expr → List Token → Option (Expr × List Token)
  | 0, _, _ => none
  | fuel + 1, acc, ts =>
    match ts with
    | Token.op '+' :: rest =>
      match parse_prod fuel rest with
      | some (e, rest') => parse_sum_rest fuel (Expr.add acc e) rest'
      | none => none
    | Token.op '-' :: rest =>
      match parse_prod fuel rest with
      | some (e, rest') => parse_sum_rest fuel (Expr.sub acc e) rest'
      | none => none
    | _ => some (acc, ts)

/-- Parse a sum of products: the whole expression grammar. -/
def parse_sum : Nat → List Token → Option (Expr × List Token)
  | 0, _ => none
  | fuel + 1, ts =>
    match parse_prod fuel ts with
    | some (e, rest) => parse_sum_rest fuel e rest
    | none => none

end

/-- Parse one band expression string; none models a numexpr parse error. -/
def ne_parse (s : String) : Option Expr :=
  match tokenize (s.data.length + 1) s.data with
  | none => none
  | some ts =>
    match parse_sum (4 * ts.length + 4) ts with
    | some (e, []) => some e
    | _ => none

/-- A 2-d band of double values. -/
abbrev Band := List (List FVal)

/-- Element-wise lift of a binary operation to equally-shaped 2-d bands. -/
def zip_band (f : FVal → FVal → FVal) (a b : Band) : Band :=
  List.zipWith (List.zipWith f) a b

/-- Element-wise evaluation of an expression against named bands; an unknown
variable gives none, as numexpr raises. -/
def eval_expr : Expr → List (String × Band) → Option Band
  | Expr.var s, ctx => List.lookup s ctx
  | Expr.add a b, ctx =>
    match eval_expr a ctx, eval_expr b ctx with
    | some x, some y => some (zip_band FVal.add x y)
    | _, _ => none
  | Expr.sub a b, ctx =>
    match eval_expr a ctx, eval_expr b ctx with
    | some x, some y => some (zip_band FVal.sub x y)
    | _, _ => none
  | Expr.mul a b, ctx =>
    match eval_expr a ctx, eval_expr b ctx with
    | some x, some y => some (zip_band FVal.mul x y)
    | _, _ => none
  | Expr.div a b, ctx =>
    match eval_expr a ctx, eval_expr b ctx with
    | some x, some y => some (zip_band FVal.div x y)
    | _, _ => none

/-- numpy.nan_to_num over a whole band. -/
def nan_to_num_band (b : Band) : Band := b.map (List.map FVal.nan_to_num)

/-- Option-valued map with the failure-propagation of a Python loop. -/
def map_option (f : α → Option β) : List α → Option (List β)
  | [] => some []
  | x :: xs =>
    match f x, map_option f xs with
    | some y, some ys => some (y :: ys)
    | _, _ => none

/-! ### Data model -/

/-- Encoded image bytes. -/
abbrev Bytes := List Nat

/-- A geojson geometry, kept opaque. -/
abbrev GeoJson := String

/-- A STAC item, kept opaque. -/
abbrev StacItem := String

/-- A palette from the colormap registry, kept opaque. -/
abbrev Colormap := String

/-- A native spatial extent (left, bottom, right, top) as rasterio orders it. -/
structure Extent where
  left : ℚ
  bottom : ℚ
  right : ℚ
  top : ℚ
deriving DecidableEq

/-- One asset-usage feature returned by mosaic_reader; only its id is read. -/
structure Asset where
  id : String
deriving DecidableEq

/-- The decoded pixel array of an encoded image: numpy shape is
(height, width, channels), so shape[0] is the height and shape[1] the width. -/
structure PixelArray where
  height : Nat
  width : Nat
deriving DecidableEq

/-- rio_tiler ImageData: band data (bands x height x width), validity mask,
native bounds and CRS. -/
structure ImageData where
  data : List Band
  mask : List (List Nat)
  bounds : Extent
  crs : String
deriving DecidableEq

/-- The RGB-expression request entry: an assets list and an expression string. -/
structure RGBExpression where
  assets : List String
  expression : String
deriving DecidableEq

/-- The request dictionary.  A key absent from the Python dict is none; the
source never distinguishes a key set to None from an absent key. -/
structure Params where
  feature_geojson : GeoJson := ""
  stac_list : List StacItem := []
  assets : Option (List String) := none
  expression : Option String := none
  rgb_expression : Option RGBExpression := none
  max_size : Option Nat := none
  nodata : Option ℚ := none
  min_value : Option ℚ := none
  max_value : Option ℚ := none
  color_formula : Option String := none
  colormap : Option String := none
  image_format : Option String := none
  enhance_image : Bool := false
  enhance_passes : Option Nat := none
  zip_file : Bool := false
  image_as_array : Bool := false
deriving DecidableEq

/-- The value part of the (view_type, view_params) pair of __get_view_params. -/
inductive ViewValue where
  | assets (l : List String)
  | expression (e : String)
deriving DecidableEq

/-- The classified terminal failures of the pipeline: the ValueError of the
format check, the TypeError of unpacking a None view-params pair, a numexpr
failure, the rio_tiler InvalidColorMapName, and a dict KeyError. -/
inductive RenderErr where
  | formatNotAccepted
  | invalidRequest
  | expressionError
  | unknownColormap
  | keyError
deriving DecidableEq

/-- The image field of the returned dict: bytes, or the decoded array when
image_as_array is set. -/
inductive ImageOut where
  | bytes (b : Bytes)
  | array (a : PixelArray)
deriving DecidableEq

/-- The reprojected bounds [[south, west], [north, east]]. -/
abbrev GeoBounds := (ℚ × ℚ) × (ℚ × ℚ)

/-- The two shapes of the returned dict, selected by zip_file. -/
inductive Output where
  | zipped (image : ImageOut) (bounds : GeoBounds) (zip_file : List (String × Bytes))
      (name : String)
  | plain (image : ImageOut) (projection_file : String) (bounds : GeoBounds)
      (assets_used : List Asset) (name : String)
deriving DecidableEq

/-- The name field of either return shape. -/
def Output.name : Output → String
  | Output.zipped _ _ _ n => n
  | Output.plain _ _ _ _ n => n

/-- The external collaborators of the pipeline, passed as opaque functions:
mosaic_reader with the tiler, warp.transform_bounds, ImageData.post_process,
ImageData.render, the whole __enhance_image body (PIL decode, rdn.predict,
alpha resize, re-encode - all external), the PIL decode of __image_as_array,
cmap.get, the Python float formatter used by the world-file f-string,
json.dumps for the geometry and for the metadata FeatureCollection, and
str.encode. -/
structure Ext where
  mosaic : List StacItem → GeoJson → (String × ViewValue) → Option Nat → Option ℚ → Bool →
    ImageData × List Asset
  transform_bounds : String → String → Extent → Extent
  post_process : ImageData → (Option ℚ × Option ℚ) → Option String → ImageData
  rend : ImageData → Option String → Option Colormap → Bytes
  enhance : Bytes → Params → Bytes
  decode : Bytes → PixelArray
  cmap_get : String → Option Colormap
  rho : ℚ → String
  dumps_geo : GeoJson → String
  dumps_meta : List Asset → String
  encode_str : String → Bytes

/-! ### The ReadSTAC methods -/

/-- self.default_crs. -/
def default_crs : String := "EPSG:4326"

/-- self.formats: the accepted image formats and their world-file extensions. -/
def formats : List (String × String) := [("PNG", "PGW"), ("JPEG", "JGW")]

/-- self.float_precision. -/
def float_precision : Nat := 5

/-- The test params.get("image_format") not in self.formats (dict membership
is key membership; None is not a key). -/
def format_ok (f : Option String) : Bool :=
  match f with
  | some s => (formats.lookup s).isSome
  | none => false

/-- Python round(x, n) to n decimal digits.  (Python rounds ties on the binary
float to even; the tie-breaking never matters here and half-up is used.) -/
def round5 (q : ℚ) : ℚ := ((⌊q * 100000 + 1 / 2⌋ : ℤ) : ℚ) / 100000

/-- __get_view_params: first key of assets, expression, RGB-expression wins;
none when all three are absent (the caller then crashes unpacking None). -/
def get_view_params (p : Params) : Option (String × ViewValue) :=
  match p.assets with
  | some a => some ("assets", ViewValue.assets a)
  | none =>
    match p.expression with
    | some e => some ("expression", ViewValue.expression e)
    | none =>
      match p.rgb_expression with
      | some r => some ("assets", ViewValue.assets r.assets)
      | none => none

/-- rio_tiler ImageData attribute defaults, used for the ImageData rebuilt by
__process_rgb_expression (the source passes only data and mask; the rebuilt
bounds and crs are never consumed, the bounds having been reprojected
beforehand). -/
def rio_default_extent : Extent := ⟨-180, -90, 180, 90⟩

/-- Default crs of a rebuilt rio_tiler ImageData. -/
def rio_default_crs : String := "EPSG:4326"

/-- __process_rgb_expression: bind bands to the RGB-expression asset names by
position (a Python dict, so a later duplicate name overwrites an earlier one:
lookup on the reversed list), split the expression on commas, evaluate each
element-wise, sanitize with np.nan_to_num, and rebuild an ImageData carrying
the original mask. -/
def process_rgb_expression (image_data : ImageData) (p : Params) : Option ImageData :=
  match p.rgb_expression with
  | none => none
  | some rgb =>
    match map_option
        (fun pair => (image_data.data.get? pair.1).map (fun arr => (pair.2, arr)))
        rgb.assets.enum with
    | none => none
    | some ctx_list =>
      match map_option
          (fun band =>
            match ne_parse (py_strip band) with
            | none => none
            | some e =>
              match eval_expr e ctx_list.reverse with
              | none => none
              | some arr => some (nan_to_num_band arr))
          (py_split_comma rgb.expression) with
      | none => none
      | some bands =>
        some { data := bands, mask := image_data.mask,
               bounds := rio_default_extent, crs := rio_default_crs }

/-- Python truthiness of params.get("assets"): present and non-empty.  (The
RGB-expression value is a non-empty dict whenever present, so its truthiness
is plain presence.) -/
def truthy_assets : Option (List String) → Bool
  | some (_ :: _) => true
  | _ => false

/-- __post_process_image: natural-color branch passes the raw min/max and the
color formula; the single-band branch defaults the range to [-1, 1] and sends
no color formula. -/
def post_process_image (pp : ImageData → (Option ℚ × Option ℚ) → Option String → ImageData)
    (image_data : ImageData) (p : Params) : ImageData :=
  if truthy_assets p.assets || p.rgb_expression.isSome then
    pp image_data (p.min_value, p.max_value) p.color_formula
  else
    pp image_data (some (p.min_value.getD (-1)), some (p.max_value.getD 1)) none

/-- __render_image: the natural-color branch renders without a colormap; the
single-band branch looks the requested colormap (default viridis) up in the
registry, failing when it is not registered. -/
def render_image (rend : ImageData → Option String → Option Colormap → Bytes)
    (cmap_get : String → Option Colormap) (image : ImageData) (p : Params) :
    Except RenderErr Bytes :=
  if truthy_assets p.assets || p.rgb_expression.isSome then
    Except.ok (rend image p.image_format none)
  else
    match cmap_get (p.colormap.getD "viridis") with
    | none => Except.error RenderErr.unknownColormap
    | some cm => Except.ok (rend image p.image_format (some cm))

/-- __get_image_bounds: round the native extent to 5 digits, reproject to
EPSG:4326, round again, and restructure as [[south, west], [north, east]]. -/
def get_image_bounds (tb : String → String → Extent → Extent) (image : ImageData) :
    GeoBounds :=
  let l := round5 image.bounds.left
  let b := round5 image.bounds.bottom
  let r := round5 image.bounds.right
  let t := round5 image.bounds.top
  let bounds_4326 := tb image.crs default_crs ⟨l, b, r, t⟩
  ((round5 bounds_4326.bottom, round5 bounds_4326.left),
   (round5 bounds_4326.top, round5 bounds_4326.right))

/-- __get_world_file_content: decode the final image for its shape and write
the six affine coefficients, one per line, each line newline-terminated; rho
is the Python float formatter of the f-string. -/
def get_world_file_content (rho : ℚ → String) (decode : Bytes → PixelArray)
    (image_bounds : GeoBounds) (image : Bytes) : String :=
  let a := decode image
  rho (|image_bounds.1.2 - image_bounds.2.2| / (a.width : ℚ)) ++ "\n" ++
  "0.0" ++ "\n" ++
  "0.0" ++ "\n" ++
  rho (-|image_bounds.1.1 - image_bounds.2.1| / (a.height : ℚ)) ++ "\n" ++
  rho image_bounds.1.2 ++ "\n" ++
  rho image_bounds.2.1 ++ "\n"

/-- __create_zip_geoimage: the four archive members in write order.  none
models an AttributeError or KeyError on an unaccepted format, which the
orchestrator's format check makes unreachable. -/
def create_zip_geoimage (dumps_geo : GeoJson → String) (dumps_meta : List Asset → String)
    (encode_str : String → Bytes) (image : Bytes) (world_file : String)
    (image_format : Option String) (geometry : GeoJson) (assets_used : List Asset) :
    Option (List (String × Bytes)) :=
  match image_format with
  | none => none
  | some fmt =>
    match formats.lookup fmt with
    | none => none
    | some wext =>
      some [("image." ++ py_lower fmt, image),
            ("image." ++ py_lower wext, encode_str world_file),
            ("polygon.geojson", encode_str (dumps_geo geometry)),
            ("image_metadata.geojson", encode_str (dumps_meta assets_used))]

/-- The for-loop of the enhancement stage: passes sequential applications. -/
def enhance_loop (f : Bytes → Bytes) (passes : Nat) (image : Bytes) : Bytes :=
  (List.range passes).foldl (fun img _ => f img) image

/-- The name field of both return dicts. -/
def output_name (assets_used : List Asset) : String :=
  String.intercalate ", " (sort_strings (assets_used.map Asset.id))

/-- render_mosaic_from_stac: the pipeline orchestrator, translated statement
by statement from the source. -/
def render_mosaic_from_stac (E : Ext) (p : Params) : Except RenderErr Output :=
  if format_ok p.image_format then
    match get_view_params p with
    | none => Except.error RenderErr.invalidRequest
    | some view =>
      let md := E.mosaic p.stac_list p.feature_geojson view p.max_size p.nodata true
      let image_bounds := get_image_bounds E.transform_bounds md.1
      match (if p.rgb_expression.isSome then process_rgb_expression md.1 p else some md.1) with
      | none => Except.error RenderErr.expressionError
      | some image_data =>
        match render_image E.rend E.cmap_get (post_process_image E.post_process image_data p) p with
        | Except.error e => Except.error e
        | Except.ok rendered =>
          let final :=
            if p.enhance_image then
              enhance_loop (fun i => E.enhance i p) (p.enhance_passes.getD 1) rendered
            else rendered
          let world_file := get_world_file_content E.rho E.decode image_bounds final
          if p.zip_file then
            match create_zip_geoimage E.dumps_geo E.dumps_meta E.encode_str final world_file
                p.image_format p.feature_geojson md.2 with
            | none => Except.error RenderErr.keyError
            | some zf =>
              Except.ok (Output.zipped
                (if p.image_as_array then ImageOut.array (E.decode final)
                 else ImageOut.bytes final)
                image_bounds zf (output_name md.2))
          else
            Except.ok (Output.plain
              (if p.image_as_array then ImageOut.array (E.decode final)
               else ImageOut.bytes final)
              world_file image_bounds md.2 (output_name md.2))
  else Except.error RenderErr.formatNotAccepted

/-- Spec-side twin of __get_image_bounds, written from the specification's
words for the Bounds Reprojector: round each of the four extent values to 5
decimal digits, reproject the rounded extent into the canonical geographic
reference EPSG:4326, round the four reprojected values to 5 digits again, and
return them restructured as [[south, west], [north, east]], latitude first in
each nested pair. -/
def bounds_reprojector_spec (tb : String → String → Extent → Extent) (image : ImageData) :
    GeoBounds :=
  let rounded : Extent := ⟨round5 image.bounds.left, round5 image.bounds.bottom,
    round5 image.bounds.right, round5 image.bounds.top⟩
  let reprojected := tb image.crs "EPSG:4326" rounded
  let south := round5 reprojected.bottom
  let west := round5 reprojected.left
  let north := round5 reprojected.top
  let east := round5 reprojected.right
  ((south, west), (north, east))

/-! ### Concrete inputs used by the witnesses and counterexamples -/

/-- A 2-band 1x2 composite: A = [[1, 2]], B = [[3, 4]]. -/
def ex3_image : ImageData :=
  { data := [[[FVal.finite 1, FVal.finite 2]], [[FVal.finite 3, FVal.finite 4]]],
    mask := [[255, 255]], bounds := ⟨10, 20, 30, 40⟩, crs := "EPSG:32633" }

/-- The RGB-expression request of the worked example. -/
def ex3_params : Params :=
  { rgb_expression := some ⟨["A", "B"], "A+B,A-B,A*B"⟩ }

/-- A 2-band 1x1 composite with a zero in band B: A = [[1]], B = [[0]]. -/
def cx3_image : ImageData :=
  { data := [[[FVal.finite 1]], [[FVal.finite 0]]],
    mask := [[255]], bounds := ⟨0, 0, 1, 1⟩, crs := "EPSG:3857" }

/-- A request whose expression A/B divides by zero, producing +inf. -/
def cx3_params : Params :=
  { rgb_expression := some ⟨["A", "B"], "A/B"⟩ }

/-- Concrete external collaborators for end-to-end witness runs. -/
def ex_ext : Ext :=
  { mosaic := fun _ _ _ _ _ _ => (ex3_image, [⟨"T33-b"⟩, ⟨"T33-a"⟩]),
    transform_bounds := fun _ _ e => e,
    post_process := fun d _ _ => d,
    rend := fun _ _ _ => [1, 2, 3],
    enhance := fun b _ => 0 :: b,
    decode := fun _ => ⟨2, 4⟩,
    cmap_get := fun s => if s = "viridis" then some "viridis-palette" else none,
    rho := fun _ => "c",
    dumps_geo := fun g => g,
    dumps_meta := fun _ => "meta",
    encode_str := fun s => s.data.map Char.toNat }

/-- A request carrying two band-selection keys at once. -/
def c4_params : Params :=
  { assets := some ["red"], expression := some "nir", image_format := some "PNG" }

/-- A request carrying no band-selection key at all. -/
def c4w_params : Params := { image_format := some "PNG" }

/-- A plain natural-color request without enhancement. -/
def c6w_params : Params := { assets := some ["red"], image_format := some "PNG" }

/-- A natural-color request used for the name-field witness. -/
def c7w_params : Params := { assets := some ["red"], image_format := some "PNG" }

/-- A natural-color request asking for the zip bundle. -/
def c8_params : Params :=
  { assets := some ["red"], image_format := some "PNG", zip_file := true }

/-- A request whose assets key is present but bound to an empty list. -/
def c10_params : Params := { assets := some ([] : List String), image_format := some "PNG" }

/-- A request with a non-empty assets list. -/
def c10w_params : Params := { assets := some ["red"] }

/-- Concrete float formatter for the world-file witness. -/
def w1_rho : ℚ → String := fun _ => "c"

/-- Concrete decoder giving a 2x4 image for the world-file witness. -/
def w1_decode : Bytes → PixelArray := fun _ => ⟨2, 4⟩

/-- Concrete non-degenerate bounds for the world-file witness. -/
def w1_bounds : GeoBounds := ((0, 0), (1, 1))

/-! ### Helper lemmas -/

/-- Every element produced by a successful map_option is the image of some
input element under the partial function. -/
theorem map_option_mem {α β : Type} {f : α → Option β} {l : List α} {ys : List β}
    (h : map_option f l = some ys) : ∀ y ∈ ys, ∃ x ∈ l, f x = some y := by
  induction l generalizing ys with
  | nil =>
    simp only [map_option, Option.some.injEq] at h
    subst h
    intro y hy
    cases hy
  | cons x xs ih =>
    simp only [map_option] at h
    cases hfx : f x with
    | none => rw [hfx] at h; cases h
    | some y0 =>
      rw [hfx] at h
      cases hrest : map_option f xs with
      | none => rw [hrest] at h; cases h
      | some ys0 =>
        rw [hrest] at h
        simp only [Option.some.injEq] at h
        subst h
        intro y hy
        cases hy with
        | head => exact ⟨x, List.mem_cons_self x xs, hfx⟩
        | tail _ hy =>
          rcases ih hrest y hy with ⟨x', hx', hfx'⟩
          exact ⟨x', List.mem_cons_of_mem x hx', hfx'⟩

/-- nan_to_num always yields a finite value. -/
theorem nan_to_num_is_finite (v : FVal) : (FVal.nan_to_num v).is_finite = true := by
  cases v <;> rfl

/-- The only failure __render_image can raise is the unknown-colormap one. -/
theorem render_image_error_is_colormap
    (rend : ImageData → Option String → Option Colormap → Bytes)
    (cg : String → Option Colormap) (image : ImageData) (p : Params) (e : RenderErr)
    (h : render_image rend cg image p = Except.error e) : e = RenderErr.unknownColormap := by
  unfold render_image at h
  split at h
  · exact Except.noConfusion h
  · split at h
    · exact (Except.error.inj h).symm
    · exact Except.noConfusion h

/-! ### Claim theorems -/

/-- C1: for every non-degenerate GeoBounds b = [[south, west], [north, east]]
and every final rendered image of width w > 0 and height h > 0, the generated
world file is the six-line newline-terminated text whose lines are
|b[0][1] - b[1][1]| / w (positive), 0.0, 0.0, -|b[0][0] - b[1][0]| / h
(negative), b[0][1] and b[1][0], in that order. -/
theorem c1_world_file_lines (rho : ℚ → String) (decode : Bytes → PixelArray)
    (b : GeoBounds) (img : Bytes)
    (hw : 0 < (decode img).width) (hh : 0 < (decode img).height)
    (hlon : b.1.2 ≠ b.2.2) (hlat : b.1.1 ≠ b.2.1) :
    get_world_file_content rho decode b img =
      rho (|b.1.2 - b.2.2| / ((decode img).width : ℚ)) ++ "\n" ++
      "0.0" ++ "\n" ++
      "0.0" ++ "\n" ++
      rho (-|b.1.1 - b.2.1| / ((decode img).height : ℚ)) ++ "\n" ++
      rho b.1.2 ++ "\n" ++
      rho b.2.1 ++ "\n"
    ∧ 0 < |b.1.2 - b.2.2| / ((decode img).width : ℚ)
    ∧ -|b.1.1 - b.2.1| / ((decode img).height : ℚ) < 0 := by
  refine ⟨rfl, ?_, ?_⟩
  · apply div_pos (abs_pos.mpr (sub_ne_zero.mpr hlon))
    exact_mod_cast hw
  · rw [neg_div, neg_lt_zero]
    apply div_pos (abs_pos.mpr (sub_ne_zero.mpr hlat))
    exact_mod_cast hh

/-- Witness for C1 at the concrete bounds ((0,0),(1,1)) and a 2x4 image. -/
theorem c1_world_file_lines_witness :
    get_world_file_content w1_rho w1_decode w1_bounds [] =
      w1_rho (|w1_bounds.1.2 - w1_bounds.2.2| / ((w1_decode []).width : ℚ)) ++ "\n" ++
      "0.0" ++ "\n" ++
      "0.0" ++ "\n" ++
      w1_rho (-|w1_bounds.1.1 - w1_bounds.2.1| / ((w1_decode []).height : ℚ)) ++ "\n" ++
      w1_rho w1_bounds.1.2 ++ "\n" ++
      w1_rho w1_bounds.2.1 ++ "\n"
    ∧ 0 < |w1_bounds.1.2 - w1_bounds.2.2| / ((w1_decode []).width : ℚ)
    ∧ -|w1_bounds.1.1 - w1_bounds.2.1| / ((w1_decode []).height : ℚ) < 0 :=
  c1_world_file_lines w1_rho w1_decode w1_bounds []
    (by decide) (by decide) (by decide) (by decide)

/-- C2: for every composite image, the Bounds Reprojector rounds the four
native extent values to 5 decimal digits, reprojects the rounded extent to
EPSG:4326, rounds the reprojected values to 5 digits again, and returns them
restructured as [[south, west], [north, east]], latitude before longitude. -/
theorem c2_bounds_reprojector (tb : String → String → Extent → Extent) (image : ImageData) :
    get_image_bounds tb image = bounds_reprojector_spec tb image :=
  rfl

/-- Counterexample to C3 as stated: with bands A = [[1]], B = [[0]] and
expression A/B the evaluation yields +inf, and np.nan_to_num turns it into
the largest finite double, not into 0. -/
theorem c3_counterexample :
    process_rgb_expression cx3_image cx3_params =
      some { data := [[[FVal.finite max_float]]], mask := [[255]],
             bounds := rio_default_extent, crs := rio_default_crs }
    ∧ (max_float : ℚ) ≠ 0 := by
  constructor
  · decide
  · decide

/-- C3 (amended): the evaluator computes each comma-separated expression
element-wise against the bands bound to the RGB-expression asset names in
order — on A = [[1,2]], B = [[3,4]] with expression A+B,A-B,A*B it returns
exactly the 3 bands [[4,6]], [[-2,-2]], [[3,8]] — and sanitizes every
evaluated value: NaN becomes 0, +inf the largest finite double and -inf its
negation, so the output holds only finite values. -/
theorem c3_amended :
    process_rgb_expression ex3_image ex3_params =
      some { data := [[[FVal.finite 4, FVal.finite 6]],
                      [[FVal.finite (-2), FVal.finite (-2)]],
                      [[FVal.finite 3, FVal.finite 8]]],
             mask := [[255, 255]],
             bounds := rio_default_extent, crs := rio_default_crs }
    ∧ FVal.nan_to_num FVal.nan = FVal.finite 0
    ∧ FVal.nan_to_num FVal.inf = FVal.finite max_float
    ∧ FVal.nan_to_num FVal.neginf = FVal.finite (-max_float)
    ∧ (∀ (img : ImageData) (p : Params) (out : ImageData),
        process_rgb_expression img p = some out →
        ∀ band ∈ out.data, ∀ row ∈ band, ∀ v ∈ row, v.is_finite = true) := by
  refine ⟨by decide, rfl, rfl, rfl, ?_⟩
  intro img p out h band hband row hrow v hv
  unfold process_rgb_expression at h
  split at h
  · exact Option.noConfusion h
  · split at h
    · exact Option.noConfusion h
    · split at h
      · exact Option.noConfusion h
      · rename_i bands hbands
        simp only [Option.some.injEq] at h
        subst h
        rcases map_option_mem hbands band hband with ⟨src, _, hsrc⟩
        split at hsrc
        · exact Option.noConfusion hsrc
        · split at hsrc
          · exact Option.noConfusion hsrc
          · simp only [Option.some.injEq] at hsrc
            subst hsrc
            rcases List.mem_map.mp hrow with ⟨row0, _, hrow0⟩
            subst hrow0
            rcases List.mem_map.mp hv with ⟨v0, _, hv0⟩
            subst hv0
            exact nan_to_num_is_finite v0

/-- Witness for the amended C3, applying its sanitization clause at the
worked example. -/
theorem c3_amended_witness : FVal.is_finite (FVal.finite 4) = true :=
  c3_amended.2.2.2.2 ex3_image ex3_params
    { data := [[[FVal.finite 4, FVal.finite 6]],
               [[FVal.finite (-2), FVal.finite (-2)]],
               [[FVal.finite 3, FVal.finite 8]]],
      mask := [[255, 255]], bounds := rio_default_extent, crs := rio_default_crs }
    (by decide)
    [[FVal.finite 4, FVal.finite 6]] (by decide)
    [FVal.finite 4, FVal.finite 6] (by decide)
    (FVal.finite 4) (by decide)

/-- C9: the Band Expression Evaluator returns a new CompositeImage whose
validity mask is the input's mask unchanged (the embedding is pure, so the
input image itself is never mutated; the provable content is that the
rebuilt ImageData carries the very mask of the input). -/
theorem c9_mask_preserved (img : ImageData) (p : Params) (out : ImageData)
    (h : process_rgb_expression img p = some out) : out.mask = img.mask := by
  unfold process_rgb_expression at h
  split at h
  · exact Option.noConfusion h
  · split at h
    · exact Option.noConfusion h
    · split at h
      · exact Option.noConfusion h
      · simp only [Option.some.injEq] at h
        subst h
        rfl

/-- Witness for C9 at the worked RGB-expression example. -/
theorem c9_witness :
    ({ data := [[[FVal.finite 4, FVal.finite 6]],
                [[FVal.finite (-2), FVal.finite (-2)]],
                [[FVal.finite 3, FVal.finite 8]]],
       mask := [[255, 255]],
       bounds := rio_default_extent, crs := rio_default_crs } : ImageData).mask =
      ex3_image.mask :=
  c9_mask_preserved ex3_image ex3_params _ (by decide)

/-- Counterexample to C4 as stated: a request carrying both assets and
expression (two band-selection keys, so not exactly one) does not fail —
the pipeline returns an output bundle. -/
theorem c4_counterexample :
    c4_params.assets.isSome = true ∧ c4_params.expression.isSome = true ∧
    ∃ out, render_mosaic_from_stac ex_ext c4_params = Except.ok out :=
  ⟨rfl, rfl, ⟨_, rfl⟩⟩

/-- C4 (amended): render_mosaic fails with InvalidRequest exactly when none
of assets, expression, RGB-expression is present (given an accepted
image_format): with all three absent the pipeline fails with InvalidRequest,
and whenever at least one of them is present it never fails with
InvalidRequest; when several are present no failure arises from that either —
the first key in the priority order assets, expression, RGB-expression
selects the mode, the RGB-expression mode resolving to its assets list. -/
theorem c4_amended :
    (∀ (E : Ext) (p : Params), format_ok p.image_format = true →
      p.assets = none → p.expression = none → p.rgb_expression = none →
      render_mosaic_from_stac E p = Except.error RenderErr.invalidRequest)
    ∧ (∀ (p : Params) (a : List String), p.assets = some a →
      get_view_params p = some ("assets", ViewValue.assets a))
    ∧ (∀ (p : Params) (e : String), p.assets = none → p.expression = some e →
      get_view_params p = some ("expression", ViewValue.expression e))
    ∧ (∀ (p : Params) (r : RGBExpression), p.assets = none → p.expression = none →
      p.rgb_expression = some r →
      get_view_params p = some ("assets", ViewValue.assets r.assets))
    ∧ (∀ (E : Ext) (p : Params),
      (p.assets.isSome = true ∨ p.expression.isSome = true ∨
        p.rgb_expression.isSome = true) →
      render_mosaic_from_stac E p ≠ Except.error RenderErr.invalidRequest) := by
  refine ⟨?_, ?_, ?_, ?_, ?_⟩
  · intro E p hfmt ha he hr
    simp [render_mosaic_from_stac, hfmt, get_view_params, ha, he, hr]
  · intro p a ha
    simp [get_view_params, ha]
  · intro p e ha he
    simp [get_view_params, ha, he]
  · intro p r ha he hr
    simp [get_view_params, ha, he, hr]
  · intro E p hkey h
    have hv : get_view_params p ≠ none := by
      cases ha : p.assets with
      | some a => simp [get_view_params, ha]
      | none =>
        cases he : p.expression with
        | some e => simp [get_view_params, ha, he]
        | none =>
          cases hr : p.rgb_expression with
          | some r => simp [get_view_params, ha, he, hr]
          | none =>
            rw [ha, he, hr] at hkey
            simp at hkey
    simp only [render_mosaic_from_stac] at h
    split at h
    · split at h
      next heq => exact hv heq
      next view heq =>
        split at h
        · simp at h
        · split at h
          next e heq3 =>
            rw [render_image_error_is_colormap _ _ _ _ _ heq3] at h
            simp at h
          next rendered heq3 =>
            split at h
            · split at h
              · simp at h
              · simp at h
            · simp at h
    · simp at h

/-- Witness for the amended C4: the all-absent request fails with
InvalidRequest; on the doubly-keyed request assets wins; the
RGB-expression-only request resolves to its assets list; and the keyed
request does not fail with InvalidRequest. -/
theorem c4_amended_witness :
    render_mosaic_from_stac ex_ext c4w_params = Except.error RenderErr.invalidRequest ∧
    get_view_params c4_params = some ("assets", ViewValue.assets ["red"]) ∧
    get_view_params cx3_params = some ("assets", ViewValue.assets ["A", "B"]) ∧
    render_mosaic_from_stac ex_ext c4_params ≠ Except.error RenderErr.invalidRequest :=
  ⟨c4_amended.1 ex_ext c4w_params (by decide) rfl rfl rfl,
   c4_amended.2.1 c4_params ["red"] rfl,
   c4_amended.2.2.2.1 cx3_params ⟨["A", "B"], "A/B"⟩ rfl rfl rfl,
   c4_amended.2.2.2.2 ex_ext c4_params (Or.inl rfl)⟩

/-- C5: a request whose image_format is not in the accepted set fails with
the format error before mosaic assembly: the result is the format failure
whatever the mosaic assembler is, so no call to it can influence (or be
required for) the outcome. -/
theorem c5_format_precedes_mosaic (E : Ext)
    (m : List StacItem → GeoJson → (String × ViewValue) → Option Nat → Option ℚ → Bool →
      ImageData × List Asset)
    (p : Params) (h : format_ok p.image_format = false) :
    render_mosaic_from_stac { E with mosaic := m } p =
      Except.error RenderErr.formatNotAccepted := by
  simp [render_mosaic_from_stac, h]

/-- Witness for C5: the default request (image_format absent) fails with the
format error under an arbitrary assembler. -/
theorem c5_witness :
    render_mosaic_from_stac
      { ex_ext with mosaic := fun _ _ _ _ _ _ => (cx3_image, []) } ({} : Params) =
      Except.error RenderErr.formatNotAccepted :=
  c5_format_precedes_mosaic ex_ext (fun _ _ _ _ _ _ => (cx3_image, [])) ({} : Params)
    (by decide)

/-- C6: the enhancement loop applies the Enhancer exactly passes times, each
invocation consuming the previous invocation's output (loop = iterate); an
absent enhance_passes defaults to one application; and without enhance_image
the Enhancer is never invoked: the pipeline result does not depend on it. -/
theorem c6_enhance :
    (∀ (f : Bytes → Bytes) (n : Nat) (img : Bytes), enhance_loop f n img = f^[n] img)
    ∧ (∀ (f : Bytes → Bytes) (img : Bytes) (p : Params), p.enhance_passes = none →
        enhance_loop f (p.enhance_passes.getD 1) img = f img)
    ∧ (∀ (E : Ext) (e₁ e₂ : Bytes → Params → Bytes) (p : Params),
        p.enhance_image = false →
        render_mosaic_from_stac { E with enhance := e₁ } p =
          render_mosaic_from_stac { E with enhance := e₂ } p) := by
  have hiter : ∀ (f : Bytes → Bytes) (n : Nat) (img : Bytes),
      enhance_loop f n img = f^[n] img := by
    intro f n img
    induction n with
    | zero => rfl
    | succ k ih =>
      unfold enhance_loop at ih ⊢
      rw [List.range_succ, List.foldl_append, ih, List.foldl_cons, List.foldl_nil,
        Function.iterate_succ_apply']
  refine ⟨hiter, ?_, ?_⟩
  · intro f img p hnone
    rw [hnone]
    exact hiter f 1 img
  · intro E e₁ e₂ p h
    simp [render_mosaic_from_stac, h]

/-- Witness for C6: two loop applications iterate, and with enhance_image
unset the pipeline output is the same under two different enhancers. -/
theorem c6_witness :
    enhance_loop (fun b => 0 :: b) 2 [5] = (fun b : Bytes => 0 :: b)^[2] [5] ∧
    render_mosaic_from_stac { ex_ext with enhance := fun b _ => 1 :: b } c6w_params =
      render_mosaic_from_stac { ex_ext with enhance := fun b _ => 2 :: b } c6w_params :=
  ⟨c6_enhance.1 (fun b => 0 :: b) 2 [5],
   c6_enhance.2.2 ex_ext (fun b _ => 1 :: b) (fun b _ => 2 :: b) c6w_params rfl⟩

/-- C7: on every successful run the name field equals the comma-space join of
the lexicographically sorted asset identifiers returned by mosaic assembly,
and that name is invariant under any permutation of the assembler's list. -/
theorem c7_name :
    (∀ (E : Ext) (p : Params) (img : ImageData) (l : List Asset) (out : Output),
      render_mosaic_from_stac { E with mosaic := fun _ _ _ _ _ _ => (img, l) } p =
        Except.ok out →
      out.name = output_name l)
    ∧ (∀ l₁ l₂ : List Asset, l₁.Perm l₂ → output_name l₁ = output_name l₂) := by
  constructor
  · intro E p img l out h
    simp only [render_mosaic_from_stac] at h
    repeat' split at h
    all_goals first
      | exact Except.noConfusion h
      | (simp only [Except.ok.injEq] at h; subst h; rfl)
  · intro l₁ l₂ h
    unfold output_name sort_strings
    congr 1
    refine List.eq_of_perm_of_sorted ?_
      (List.sorted_insertionSort _ _) (List.sorted_insertionSort _ _)
    exact ((List.perm_insertionSort _ _).trans (h.map Asset.id)).trans
      (List.perm_insertionSort _ _).symm

/-- Witness for C7: a successful run's name is the sorted join, and the name
is unchanged under swapping the two returned assets. -/
theorem c7_witness :
    (∃ out, render_mosaic_from_stac
        { ex_ext with mosaic := fun _ _ _ _ _ _ => (ex3_image, [⟨"b"⟩, ⟨"a"⟩]) }
        c7w_params = Except.ok out ∧
      out.name = output_name [⟨"b"⟩, ⟨"a"⟩]) ∧
    output_name [⟨"b"⟩, ⟨"a"⟩] = output_name [⟨"a"⟩, ⟨"b"⟩] :=
  ⟨⟨_, rfl, c7_name.1 ex_ext c7w_params ex3_image [⟨"b"⟩, ⟨"a"⟩] _ rfl⟩,
   c7_name.2 [⟨"b"⟩, ⟨"a"⟩] [⟨"a"⟩, ⟨"b"⟩] (by decide)⟩

/-- C8: every successful zip_file run returns the zipped bundle whose archive
member names are exactly image.<ext>, image.<world-ext>, polygon.geojson,
image_metadata.geojson in that write order, with <ext> the lowercased format
and <world-ext> the lowercased fixed companion world-file extension. -/
theorem c8_zip_members (E : Ext) (p : Params) (out : Output) (fmt wext : String)
    (hfmt : p.image_format = some fmt) (hw : formats.lookup fmt = some wext)
    (hz : p.zip_file = true)
    (h : render_mosaic_from_stac E p = Except.ok out) :
    ∃ img bounds zf name, out = Output.zipped img bounds zf name ∧
      zf.map Prod.fst =
        ["image." ++ py_lower fmt, "image." ++ py_lower wext,
         "polygon.geojson", "image_metadata.geojson"] := by
  have hfo : format_ok p.image_format = true := by
    rw [hfmt]
    simp [format_ok, hw]
  simp only [render_mosaic_from_stac, hfo, hz, hfmt, create_zip_geoimage, hw, if_true] at h
  repeat' split at h
  all_goals first
    | exact Except.noConfusion h
    | (simp only [Except.ok.injEq] at h; subst h; exact ⟨_, _, _, _, rfl, rfl⟩)

/-- Witness for C8: a concrete successful zip run produces the four members. -/
theorem c8_witness :
    ∃ out, render_mosaic_from_stac ex_ext c8_params = Except.ok out ∧
      ∃ img bounds zf name, out = Output.zipped img bounds zf name ∧
        zf.map Prod.fst =
          ["image." ++ py_lower "PNG", "image." ++ py_lower "PGW",
           "polygon.geojson", "image_metadata.geojson"] :=
  ⟨_, rfl, c8_zip_members ex_ext c8_params _ "PNG" "PGW" rfl rfl rfl rfl⟩

/-- Counterexample to C10 as stated: with the assets key present but bound to
an empty list (a request in natural-color mode by presence of the key), the
renderer takes the single-band branch, reads the colormap, and an
unregistered name changes the outcome — it raises rather than rendering. -/
theorem c10_counterexample :
    c10_params.assets.isSome = true ∧
    render_image ex_ext.rend ex_ext.cmap_get ex3_image
        { c10_params with colormap := some "plasma999" } ≠
      render_image ex_ext.rend ex_ext.cmap_get ex3_image
        { c10_params with colormap := none } := by
  refine ⟨rfl, ?_⟩
  intro h
  exact Except.noConfusion h

/-- C10 (amended): whenever the assets list is present and non-empty or
RGB-expression is present, the rendered output is independent of the colormap
parameter and no colormap lookup failure can occur: the colormap is read and
validated only in the single-band branch. -/
theorem c10_amended (rend : ImageData → Option String → Option Colormap → Bytes)
    (cg : String → Option Colormap) (img : ImageData) (p : Params)
    (c₁ c₂ : Option String)
    (h : truthy_assets p.assets = true ∨ p.rgb_expression.isSome = true) :
    render_image rend cg img { p with colormap := c₁ } =
      render_image rend cg img { p with colormap := c₂ } ∧
    ∃ b, render_image rend cg img { p with colormap := c₁ } = Except.ok b := by
  have hcond : (truthy_assets p.assets || p.rgb_expression.isSome) = true := by
    rcases h with h | h <;> simp [h]
  constructor
  · simp [render_image, hcond]
  · exact ⟨rend img p.image_format none, by simp [render_image, hcond]⟩

/-- Witness for the amended C10 at a non-empty assets request and two
colormap values, one of them unregistered. -/
theorem c10_amended_witness :
    render_image ex_ext.rend ex_ext.cmap_get ex3_image
        { c10w_params with colormap := some "nosuchmap" } =
      render_image ex_ext.rend ex_ext.cmap_get ex3_image
        { c10w_params with colormap := some "viridis" } ∧
    ∃ b, render_image ex_ext.rend ex_ext.cmap_get ex3_image
        { c10w_params with colormap := some "nosuchmap" } = Except.ok b :=
  c10_amended ex_ext.rend ex_ext.cmap_get ex3_image c10w_params
    (some "nosuchmap") (some "viridis") (Or.inl rfl)

end ReadStac
